import Mathlib

/-!
Verification of the URL-routing configuration in `social_app/urls.py`.

The repository consists of a single ordered route table `urlpatterns`:

  urlpatterns = [
      path("admin/", admin.site.urls),
      path("accounts/", include("allauth.urls")),
      path("accounts/", include("django.contrib.auth.urls")),
      path("", Home.as_view(), name="home"),
  ]

The table itself is translated from the source. Route resolution is
performed by the hosting framework (not part of this repository); it is
modelled from the spec's contract: iterate entries in declaration order,
return the destination of the first entry that matches, return nothing
when no entry matches. An entry whose destination is an included
sub-route table matches every path beginning with its path prefix; an
entry whose destination is a single view matches exactly its path string
(the root entry matches only the root path).
-/

/-- Reference to an externally defined sub-route table mounted by an
entry of `urlpatterns` (an include). The three includes appearing in the
source are `admin.site.urls`, `allauth.urls` and
`django.contrib.auth.urls`. -/
inductive SubTableRef where
  | adminSiteUrls
  | allauthUrls
  | djangoContribAuthUrls
deriving DecidableEq

/-- Reference to a view callable of this repository. The only view
mounted by `urlpatterns` is `Home.as_view()`. -/
inductive ViewRef where
  | Home
deriving DecidableEq

/-- The destination of a route entry: either a sub-route table reference
(an include) or a view reference, as in the spec's data model. -/
inductive Destination where
  | subTable (t : SubTableRef)
  | view (v : ViewRef)
deriving DecidableEq

/-- A route entry: a URL path string, a destination, and an optional
route name, following the spec's data model
`\x7bpath_prefix, destination, name\x7d` and the arguments of each
`path(...)` call in the source. -/
structure Route where
  pattern : String
  destination : Destination
  name : Option String
deriving DecidableEq

/-- Boolean string-prefix test on the underlying character lists, used
for matching an include's path prefix against a request path. -/
def beginsWith (pre p : String) : Bool :=
  pre.data.isPrefixOf p.data

/-- Modelled from the spec: whether a route entry matches a request
path. The matching itself is framework code absent from this
repository; per the spec, an include is a set of routes "mounted under a
prefix", so an entry whose destination is a sub-route table matches
every path beginning with its path string, while an entry whose
destination is a view matches exactly its path string (the spec's root
entry serves the root path and no other). -/
def Route.matches (r : Route) (p : String) : Bool :=
  match r.destination with
  | Destination.subTable _ => beginsWith r.pattern p
  | Destination.view _ => r.pattern.data == p.data

/-- The route table of `social_app/urls.py`, entry for entry in
declaration order. -/
def urlpatterns : List Route :=
  [ ⟨"admin/", Destination.subTable SubTableRef.adminSiteUrls, none⟩,
    ⟨"accounts/", Destination.subTable SubTableRef.allauthUrls, none⟩,
    ⟨"accounts/", Destination.subTable SubTableRef.djangoContribAuthUrls, none⟩,
    ⟨"", Destination.view ViewRef.Home, some "home"⟩ ]

/-- Modelled from the spec: route resolution. "Iterate entries in
declaration order; return the first entry whose prefix matches; if none
match, the caller (framework) is responsible for producing a not-found
response" — so an unmatched path yields `none` and no error. -/
def resolve (t : List Route) (p : String) : Option Destination :=
  match t with
  | [] => none
  | r :: rest => if r.matches p = true then some r.destination else resolve rest p

/-- Modelled from the spec: one per-request consultation of the
process-wide route table. It returns the looked-up destination together
with the table as it stands after the lookup, making any mutation of the
table observable. -/
def consult (t : List Route) (p : String) : Option Destination × List Route :=
  (resolve t p, t)

/-- Modelled from the spec: a whole sequence of per-request
consultations, each lookup running against the table state left by the
previous one. It returns the list of looked-up destinations and the
final table state. -/
def consultAll (t : List Route) (ps : List String) : List (Option Destination) × List Route :=
  match ps with
  | [] => ([], t)
  | p :: rest =>
    let step := consult t p
    let next := consultAll step.2 rest
    (step.1 :: next.1, next.2)

/-- Modelled from the spec: executing the module at process start binds
the single global name `urlpatterns` to the route table and touches no
other global binding. Global state is a list of (name, route-table)
bindings; module initialisation prepends exactly one. -/
def moduleInit (globals : List (String × List Route)) : List (String × List Route) :=
  ("urlpatterns", urlpatterns) :: globals

/-- Helper: a path beginning with "accounts/" starts with characters
'a' then 'c', so it does not begin with "admin/". -/
theorem beginsWith_accounts_not_admin (p : String) (h : beginsWith "accounts/" p = true) :
    beginsWith "admin/" p = false := by
  unfold beginsWith at h ⊢
  cases hd : p.data with
  | nil => rw [hd] at h; simp [List.isPrefixOf] at h
  | cons b bs =>
    cases hbs : bs with
    | nil => rw [hd, hbs] at h; simp [List.isPrefixOf] at h
    | cons b2 bs2 =>
      rw [hd, hbs] at h
      simp only [List.isPrefixOf, Bool.and_eq_true, beq_iff_eq] at h
      obtain ⟨h1, h2, -⟩ := h
      subst h1; subst h2
      simp [List.isPrefixOf]

/-- Helper: a path beginning with "accounts/" is not the empty string,
so the root view entry does not match it. -/
theorem beginsWith_accounts_ne_nil (p : String) (h : beginsWith "accounts/" p = true) :
    ([] == p.data) = false := by
  unfold beginsWith at h
  cases hd : p.data with
  | nil => rw [hd] at h; simp [List.isPrefixOf] at h
  | cons b bs => rfl

/-- Helper: on an accounts-prefixed path, resolution returns the first
accounts include, `allauth.urls`. -/
theorem resolve_accounts (p : String) (h : beginsWith "accounts/" p = true) :
    resolve urlpatterns p = some (Destination.subTable SubTableRef.allauthUrls) := by
  have hAdmin := beginsWith_accounts_not_admin p h
  simp [resolve, urlpatterns, Route.matches, hAdmin, h]

/-- Helper: on an admin-prefixed path, resolution returns the first
entry's destination, the admin console's sub-route table. -/
theorem resolve_admin (p : String) (h : beginsWith "admin/" p = true) :
    resolve urlpatterns p = some (Destination.subTable SubTableRef.adminSiteUrls) := by
  simp [resolve, urlpatterns, Route.matches, h]

/-- Helper: each consultation of the table returns the resolution of its
own path against the starting table, and leaves the table unchanged. -/
theorem consultAll_spec (ps : List String) (t : List Route) :
    consultAll t ps = (ps.map (resolve t), t) := by
  induction ps with
  | nil => rfl
  | cons p rest ih => simp [consultAll, consult, ih]

/-- C1: route resolution iterates the entries in declaration order and
returns the destination of the first matching entry; once entry `i`
matches and every earlier entry fails to match, the result is entry
`i`'s destination, so no later entry is consulted. -/
theorem resolve_first_match_wins (t : List Route) (p : String) (i : Nat)
    (hi : i < t.length)
    (hm : (t.get ⟨i, hi⟩).matches p = true)
    (hb : ∀ j (hj : j < t.length), j < i → (t.get ⟨j, hj⟩).matches p = false) :
    resolve t p = some (t.get ⟨i, hi⟩).destination := by
  induction t generalizing i with
  | nil => exact absurd hi (by simp)
  | cons r rest ih =>
    cases i with
    | zero =>
      simp only [List.get] at hm
      simp [resolve, hm]
    | succ i' =>
      have h0 : r.matches p = false := hb 0 (by simp) (Nat.succ_pos i')
      simp only [List.get] at hm ⊢
      simp only [resolve, h0, Bool.false_eq_true, if_false]
      exact ih i' (Nat.lt_of_succ_lt_succ hi) hm
        (fun j hj hji => hb (j + 1) (by simpa using Nat.succ_lt_succ hj) (Nat.succ_lt_succ hji))

/-- Witness for C1: on the path "accounts/login/", entry 1 (the allauth
include) is the first matching entry, and resolution returns its
destination. -/
theorem resolve_first_match_wins_witness :
    resolve urlpatterns "accounts/login/" =
      some ((urlpatterns.get ⟨1, by decide⟩).destination) := by
  apply resolve_first_match_wins urlpatterns "accounts/login/" 1 (by decide) (by decide)
  intro j hj hj1
  have hj0 : j = 0 := by omega
  subst hj0
  exact (by decide :
    (urlpatterns.get (Fin.mk 0 (Nat.succ_pos 3))).matches "accounts/login/" = false)

/-- Helper: a path beginning with neither "admin/" nor "accounts/" and
different from the root path matches no entry, so resolution returns
nothing. -/
theorem resolve_unmatched (p : String)
    (h1 : beginsWith "admin/" p = false)
    (h2 : beginsWith "accounts/" p = false)
    (h3 : p ≠ "") :
    resolve urlpatterns p = none := by
  have hd : (("".data : List Char) == p.data) = false := by
    cases hp : p.data with
    | nil =>
      exact absurd (String.ext (show p.data = "".data by rw [hp])) h3
    | cons c cs => rfl
  simp only [resolve, urlpatterns, Route.matches, h1, h2, hd,
    Bool.false_eq_true, if_false]

/-- C2: on every accounts-prefixed request path, resolution never
returns the second accounts include (`django.contrib.auth.urls`): the
first include (`allauth.urls`) shadows it on every overlapping
sub-path. -/
theorem second_accounts_include_shadowed (p : String)
    (h : beginsWith "accounts/" p = true) :
    resolve urlpatterns p ≠ some (Destination.subTable SubTableRef.djangoContribAuthUrls) := by
  rw [resolve_accounts p h]
  simp

/-- Witness for C2 at the concrete path "accounts/login/". -/
theorem second_accounts_include_shadowed_witness :
    beginsWith "accounts/" "accounts/login/" = true ∧
      resolve urlpatterns "accounts/login/" ≠
        some (Destination.subTable SubTableRef.djangoContribAuthUrls) :=
  ⟨by decide, second_accounts_include_shadowed "accounts/login/" (by decide)⟩

/-- C3: the root (empty) path resolves to the Home view, and it matches
exactly one entry of the route table. -/
theorem root_resolves_to_home_uniquely :
    resolve urlpatterns "" = some (Destination.view ViewRef.Home) ∧
      urlpatterns.countP (fun r => r.matches "") = 1 := by
  decide

/-- C4: every request path beginning with "admin/" resolves to the admin
console's sub-route table (`admin.site.urls`). -/
theorem admin_resolves_to_admin_site (p : String)
    (h : beginsWith "admin/" p = true) :
    resolve urlpatterns p = some (Destination.subTable SubTableRef.adminSiteUrls) :=
  resolve_admin p h

/-- Witness for C4 at the concrete path "admin/login/". -/
theorem admin_resolves_to_admin_site_witness :
    beginsWith "admin/" "admin/login/" = true ∧
      resolve urlpatterns "admin/login/" =
        some (Destination.subTable SubTableRef.adminSiteUrls) :=
  ⟨by decide, admin_resolves_to_admin_site "admin/login/" (by decide)⟩

/-- C5: every request path beginning with "accounts/" dispatches into
the first listed authentication sub-route table (`allauth.urls`), and
never directly to a view of this file. -/
theorem accounts_resolves_to_allauth (p : String)
    (h : beginsWith "accounts/" p = true) :
    resolve urlpatterns p = some (Destination.subTable SubTableRef.allauthUrls) ∧
      ∀ v : ViewRef, resolve urlpatterns p ≠ some (Destination.view v) := by
  refine ⟨resolve_accounts p h, ?_⟩
  intro v
  rw [resolve_accounts p h]
  simp

/-- Witness for C5 at the concrete path "accounts/signup/". -/
theorem accounts_resolves_to_allauth_witness :
    beginsWith "accounts/" "accounts/signup/" = true ∧
      (resolve urlpatterns "accounts/signup/" =
          some (Destination.subTable SubTableRef.allauthUrls) ∧
        ∀ v : ViewRef, resolve urlpatterns "accounts/signup/" ≠
          some (Destination.view v)) :=
  ⟨by decide, accounts_resolves_to_allauth "accounts/signup/" (by decide)⟩

/-- C6: a request path that begins with neither "admin/" nor
"accounts/" and is not the root path matches no entry: lookup returns
`none` without raising any error of its own, the not-found response
being the caller's responsibility. -/
theorem unmatched_path_resolves_to_none (p : String)
    (h1 : beginsWith "admin/" p = false)
    (h2 : beginsWith "accounts/" p = false)
    (h3 : p ≠ "") :
    resolve urlpatterns p = none :=
  resolve_unmatched p h1 h2 h3

/-- Witness for C6 at the concrete path "about/". -/
theorem unmatched_path_resolves_to_none_witness :
    beginsWith "admin/" "about/" = false ∧
      beginsWith "accounts/" "about/" = false ∧
      "about/" ≠ "" ∧
      resolve urlpatterns "about/" = none :=
  ⟨by decide, by decide, by decide,
    unmatched_path_resolves_to_none "about/" (by decide) (by decide) (by decide)⟩

/-- C7: the route table is built once and never mutated: module
initialisation adds exactly the one `urlpatterns` binding in front of
the untouched pre-existing globals, and after any sequence of lookups
the table is still `urlpatterns`, entry for entry. -/
theorem table_built_once_never_mutated
    (g : List (String × List Route)) (ps : List String) :
    (moduleInit g).head? = some ("urlpatterns", urlpatterns) ∧
      (moduleInit g).tail = g ∧
      (consultAll urlpatterns ps).2 = urlpatterns := by
  refine ⟨rfl, rfl, ?_⟩
  rw [consultAll_spec]

/-- C8: any number of request streams may consult the table without
synchronization: however the scheduler serialises two clients' request
lists, every request receives the pure resolution of its own path and
the table is left unchanged, so no lookup can race with a mutation. -/
theorem concurrent_consultation_safe (ps qs : List String) :
    (consultAll urlpatterns (ps ++ qs)).2 = urlpatterns ∧
      (consultAll urlpatterns (ps ++ qs)).1 =
        ps.map (resolve urlpatterns) ++ qs.map (resolve urlpatterns) := by
  rw [consultAll_spec]
  exact ⟨rfl, List.map_append (resolve urlpatterns) ps qs⟩

/-- C9: resolution is deterministic: a lookup of the same path after any
two histories of prior lookups returns the same destination, which
depends only on the path. -/
theorem resolution_deterministic (prior1 prior2 : List String) (p : String) :
    (consult (consultAll urlpatterns prior1).2 p).1 =
      (consult (consultAll urlpatterns prior2).2 p).1 := by
  rw [consultAll_spec, consultAll_spec]

/-- C10: the root entry matches only the exact empty path: resolution
returns the Home view precisely on the root path and on no other, so
the last entry shadows nothing despite its empty path string. -/
theorem home_only_on_root (p : String) :
    resolve urlpatterns p = some (Destination.view ViewRef.Home) ↔ p = "" := by
  constructor
  · intro h
    by_cases h1 : beginsWith "admin/" p = true
    · rw [resolve_admin p h1] at h
      exact absurd h (by simp)
    · by_cases h2 : beginsWith "accounts/" p = true
      · rw [resolve_accounts p h2] at h
        exact absurd h (by simp)
      · by_cases h3 : p = ""
        · exact h3
        · rw [resolve_unmatched p (Bool.eq_false_iff.mpr h1) (Bool.eq_false_iff.mpr h2) h3] at h
          exact absurd h (by simp)
  · intro h
    subst h
    decide
